import Mathlib

/-!
Verification development for the themost-sqlite storage adapter
(src/SqliteAdapter.js).  The JavaScript source is shallowly embedded:
callback pipelines become sequential pure functions, the SQLite engine
becomes an explicit `Db` state, and every statement handed to
`execute` is recorded in a trace (the SQL text before parameter
substitution).  JavaScript strings are Lean strings; JavaScript string
comparison is the code-unit lexicographic order `jsStrLe`.
-/

namespace ThemostSqlite

/-! ## JavaScript string primitives (structural, kernel-reducible) -/

/-- Lexicographic code-unit comparison of character lists, the order used by
the JavaScript relational operators on strings. -/
def charListLe : List Char → List Char → Bool
  | [], _ => true
  | _ :: _, [] => false
  | a :: as, b :: bs => if a = b then charListLe as bs else decide (a < b)

/-- JavaScript string comparison a less-or-equal b. -/
def jsStrLe (a b : String) : Bool :=
  charListLe a.data b.data

/-- Maximum of a list of strings under `jsStrLe`; models SELECT MAX over a
TEXT column (none for the empty set, where SQL returns NULL). -/
def maxS : List String → Option String
  | [] => none
  | v :: rest =>
    match maxS rest with
    | none => some v
    | some w => some (if jsStrLe v w then w else v)

/-- Character-list prefix test (structural replacement for the
position-based core String functions, which do not reduce well). -/
def listStarts : List Char → List Char → Bool
  | [], _ => true
  | _ :: _, [] => false
  | a :: as, b :: bs => (a = b) && listStarts as bs

/-- Test whether the string s starts with the text pre. -/
def strStarts (pre s : String) : Bool :=
  listStarts pre.data s.data

/-- Uppercasing by mapping over the characters; models
String.prototype.toUpperCase on the ASCII type names involved. -/
def strToUpper (s : String) : String :=
  ⟨s.data.map Char.toUpper⟩

/-- Array.prototype.join with a separator. -/
def joinSep (sep : String) : List String → String
  | [] => ""
  | [x] => x
  | x :: y :: xs => x ++ sep ++ joinSep sep (y :: xs)

/-- Classification of a trace entry as DDL of interest: CREATE or ALTER. -/
def isAlterOrCreate (s : String) : Bool :=
  strStarts "ALTER" s || strStarts "CREATE" s

/-! ## Type mapper (src/SqliteAdapter.js lines 109-175, static formatType) -/

/-- Logical field definition handed to the migration engine
(name, logical type, optional size and scale, optional nullability,
primary flag, one-to-many marker). -/
structure FieldDefinition where
  name : String
  type : String
  size : Option Int := none
  scale : Option Int := none
  nullable : Option Bool := none
  primary : Bool := false
  oneToMany : Bool := false
deriving DecidableEq

/-- JavaScript truthiness of the size or scale field: present and nonzero. -/
def truthy : Option Int → Bool
  | some n => n != 0
  | none => false

/-- Decimal rendering of the raw size value as JavaScript string
interpolation would print it. -/
def optNumStr : Option Int → String
  | some n => toString n
  | none => "undefined"

/-- Guard `size > 0` where size is parseInt of the field size
(NaN for an absent value, and NaN > 0 is false). -/
def parsedGtZero : Option Int → Bool
  | some n => decide (n > 0)
  | none => false

/-- Base physical type string of the switch in formatType
(src/SqliteAdapter.js lines 112-168) for every case except Counter,
which returns early from the switch before any suffix is appended. -/
def baseTypeS (field : FieldDefinition) : String :=
  if field.type = "Boolean" then "INTEGER(1,0)"
  else if field.type = "Byte" then "INTEGER(1,0)"
  else if field.type = "Number" then "REAL"
  else if field.type = "Float" then "REAL"
  else if field.type = "Currency" then
    "NUMERIC(" ++ (if truthy field.size then optNumStr field.size else "19") ++ ",4)"
  else if field.type = "Decimal" then
    if truthy field.size && truthy field.scale then
      "NUMERIC(" ++ optNumStr field.size ++ "," ++ optNumStr field.scale ++ ")"
    else "NUMERIC"
  else if field.type = "Date" then "NUMERIC"
  else if field.type = "DateTime" then "NUMERIC"
  else if field.type = "Time" then
    if parsedGtZero field.size then "TEXT(" ++ optNumStr field.size ++ ",0)" else "TEXT"
  else if field.type = "Long" then "NUMERIC"
  else if field.type = "Duration" then
    if parsedGtZero field.size then "TEXT(" ++ optNumStr field.size ++ ",0)" else "TEXT(48,0)"
  else if field.type = "Integer" then
    "INTEGER" ++ (if truthy field.size then "(" ++ optNumStr field.size ++ ",0)" else "")
  else if field.type = "URL" then
    if truthy field.size then "TEXT(" ++ optNumStr field.size ++ ",0)" else "TEXT"
  else if field.type = "Text" then
    if truthy field.size then "TEXT(" ++ optNumStr field.size ++ ",0)" else "TEXT"
  else if field.type = "Note" then
    if truthy field.size then "TEXT(" ++ optNumStr field.size ++ ",0)" else "TEXT"
  else if field.type = "Image" then "BLOB"
  else if field.type = "Binary" then "BLOB"
  else if field.type = "Guid" then "TEXT(36,0)"
  else if field.type = "Short" then "INTEGER(2,0)"
  else "INTEGER"

/-- Nullability suffix appended for non-primary fields
(src/SqliteAdapter.js line 173): absent nullable means NULL. -/
def fieldSuffix (field : FieldDefinition) : String :=
  match field.nullable with
  | none => " NULL"
  | some b => if b then " NULL" else " NOT NULL"

/-- Embedding of SqliteAdapter.formatType (lines 109-175).  The Counter
case returns early inside the switch; every other case computes the base
string and then appends either the primary-key suffix or the
nullability suffix. -/
def formatType (field : FieldDefinition) : String :=
  if field.type = "Counter" then "INTEGER PRIMARY KEY AUTOINCREMENT NOT NULL"
  else if field.primary then baseTypeS field ++ " PRIMARY KEY NOT NULL"
  else baseTypeS field ++ fieldSuffix field

/-- Template rendering of the DDL fragment format with the two tokens for
name and mapped type, as used with the template quoted-name-space-type
(src/SqliteAdapter.js lines 176-183 and 280-287). -/
def formatFieldDDL (x : FieldDefinition) : String :=
  "\"" ++ x.name ++ "\" " ++ formatType x

/-! ## Result-row model and the execute normalization
(src/SqliteAdapter.js lines 944-967) -/

/-- Values stored in a result row as delivered by the driver. -/
inductive JsValue where
  | null
  | boolean (b : Bool)
  | num (n : Int)
  | text (s : String)
  | undefined
deriving DecidableEq

/-- Result row: a JavaScript object as an ordered key-value list. -/
abbrev Row := List (String × JsValue)

/-- Deletion pass of execute: for every key y in the given key list with
x[y] strictly equal to null, delete x[y] (lines 950-955 and 960-965). -/
def deleteNullKeys (keys : List String) (x : Row) : Row :=
  x.filter (fun kv => !(keys.contains kv.1 && kv.2 == JsValue.null))

/-- Normalization of an array result: the key set is taken from the first
row only (line 949) and applied to every row. -/
def normalizeRows (rs : List Row) : List Row :=
  match rs with
  | [] => []
  | r0 :: _ => rs.map (deleteNullKeys (r0.map Prod.fst))

/-- Result shapes reaching the normalization block of execute. -/
inductive JsExecResult where
  | rows (rs : List Row)
  | object (r : Row)
  | empty
deriving DecidableEq

/-- Embedding of the result normalization in execute (lines 944-967):
array results are normalized against the first row keys, a single object
against its own keys, and an absent result is passed through. -/
def normalizeExecResult : JsExecResult → JsExecResult
  | .rows rs => .rows (normalizeRows rs)
  | .object r => .object (deleteNullKeys (r.map Prod.fst) r)
  | .empty => .empty

/-! ## Transaction coordinator (src/SqliteAdapter.js lines 189-234) -/

/-- Instance state of the adapter relevant to the coordinator: the raw
connection handle and the dummy transaction marker (null or an object in
the source; here absent or present as a Bool). -/
structure TxState where
  rawConnection : Bool
  transaction : Bool
deriving DecidableEq

/-- Engine behaviour for the control statements: possible failures of
opening, BEGIN and COMMIT.  The source ignores any ROLLBACK failure
(line 217 passes a callback that drops the error), so none is modelled. -/
structure TxEnv where
  openErr : Option String := none
  beginErr : Option String := none
  commitErr : Option String := none

/-- Outcome of running a unit of work: final instance state, statements
issued, and the error handed to the continuation. -/
structure WorkResult where
  state : TxState
  trace : List String
  error : Option String

/-- A unit of work as passed to executeInTransaction. -/
def Work := TxState → WorkResult

/-- Embedding of open (lines 34-49): immediate success when a connection
exists, otherwise the engine may fail, in which case the handle stays
cleared. -/
def openConn (env : TxEnv) (s : TxState) : TxState × Option String :=
  if s.rawConnection then (s, none)
  else
    match env.openErr with
    | some e => (s, some e)
    | none => ({ s with rawConnection := true }, none)

/-- Embedding of executeInTransaction (lines 189-234).  With a transaction
already active the unit of work joins it; otherwise BEGIN is issued, and
on failure of the work exactly one ROLLBACK is issued (its own error
ignored) before the marker is cleared and the original error returned;
on success COMMIT is issued, the marker cleared, and any COMMIT error
returned. -/
def executeInTransaction (env : TxEnv) (fn : Work) : Work := fun s =>
  let o := openConn env s
  match o.2 with
  | some e => ⟨o.1, [], some e⟩
  | none =>
    let s1 := o.1
    if s1.transaction then fn s1
    else
      match env.beginErr with
      | some e => ⟨s1, ["BEGIN TRANSACTION;"], some e⟩
      | none =>
        let s2 := { s1 with transaction := true }
        let w := fn s2
        match w.error with
        | some e =>
          ⟨{ w.state with transaction := false },
            "BEGIN TRANSACTION;" :: w.trace ++ ["ROLLBACK;"], some e⟩
        | none =>
          ⟨{ w.state with transaction := false },
            "BEGIN TRANSACTION;" :: w.trace ++ ["COMMIT;"], env.commitErr⟩

/-! ## Physical database model -/

/-- Raw column row of PRAGMA table_info. -/
structure PhysColumn where
  name : String
  cid : Nat
  type : String
  notnull : Bool
  pk : Nat
deriving DecidableEq

/-- Physical table: name plus its column rows. -/
structure PhysTable where
  name : String
  columns : List PhysColumn
deriving DecidableEq

/-- Physical index: owning table, name, origin (the letter c marks an
explicitly created index) and ordered column names. -/
structure PhysIndex where
  table : String
  name : String
  origin : String
  columns : List String
deriving DecidableEq

/-- Row of the migrations ledger table. -/
structure LedgerEntry where
  appliesTo : String
  model : Option String
  version : String
  description : Option String
deriving DecidableEq

/-- Engine state seen by the adapter.  supportMigrations is the
process-wide static flag SqliteAdapter.supportMigrations; the migrations
ledger table is kept apart from user tables. -/
structure Db where
  supportMigrations : Bool := false
  migrationsTable : Bool := false
  ledger : List LedgerEntry := []
  tables : List PhysTable := []
  indexes : List PhysIndex := []
deriving DecidableEq

/-! ## Schema introspection (table handle, src/SqliteAdapter.js lines 650-797) -/

/-- Statement text of the existence query (lines 657, same text is used for
the migrations table and for target tables, with the name bound as a
parameter). -/
def sqlCheckTableExists : String :=
  "SELECT COUNT(*) count FROM sqlite_master WHERE name=? AND type=\x27table\x27;"

/-- Statement text creating the migrations ledger (lines 310-311). -/
def sqlCreateMigrationsTable : String :=
  "CREATE TABLE migrations(\"id\" INTEGER PRIMARY KEY AUTOINCREMENT, \"appliesTo\" TEXT NOT NULL, \"model\" TEXT NULL, \"description\" TEXT,\"version\" TEXT NOT NULL)"

/-- Statement text of the version query (line 679). -/
def sqlSelectVersion : String :=
  "SELECT MAX(version) AS version FROM migrations WHERE appliesTo=?"

/-- Statement text of the column introspection (line 727). -/
def sqlPragmaTableInfo : String :=
  "PRAGMA table_info(?)"

/-- Statement text of the ledger insert (line 536). -/
def sqlInsertMigration : String :=
  "INSERT INTO migrations(\"appliesTo\", \"model\", \"version\", \"description\") VALUES (?,?,?,?)"

/-- Existence semantics of the sqlite_master count query. -/
def tableExistsQ (db : Db) (name : String) : Bool :=
  if name == "migrations" then db.migrationsTable
  else db.tables.any (fun t => t.name == name)

/-- Column rows PRAGMA table_info reports for a table; a missing table
yields no rows. -/
def tableColumns (db : Db) (name : String) : List PhysColumn :=
  match db.tables.find? (fun t => t.name == name) with
  | some t => t.columns
  | none => []

/-- Column record built by the iterator of table(name).columns
(lines 737-751).  The nullable field stores the raw notnull flag exactly
as the source does; the size and scale extraction from the declared type
text is not modelled because no verified code path reads it. -/
structure SqlColumn where
  name : String
  ordinal : Nat
  type : String
  nullable : Bool
  primary : Bool
deriving DecidableEq

/-- Embedding of table(name).columns (lines 725-755). -/
def introspectColumns (db : Db) (name : String) : List SqlColumn :=
  (tableColumns db name).map (fun x =>
    { name := x.name, ordinal := x.cid, type := x.type,
      nullable := x.notnull, primary := x.pk == 1 })

/-- Version semantics of table(name).version (lines 678-688): SELECT MAX
over the ledger rows for the table; a NULL maximum (empty set) and a
falsy empty string both collapse to the default version string. -/
def versionOf (db : Db) (name : String) : String :=
  match maxS ((db.ledger.filter (fun e => e.appliesTo == name)).map (fun e => e.version)) with
  | none => "0.0"
  | some v => if v = "" then "0.0" else v

/-- Error produced by the engine when a statement references the ledger
table while it does not exist. -/
def noSuchTableMigrations : String :=
  "SQLITE_ERROR: no such table: migrations"

/-! ## Index handle (src/SqliteAdapter.js lines 1022-1162) -/

/-- Modelled from the spec: escapeName of the SqliteFormatter
(SqliteFormatter.js is part of this repository but not under src/).
Section 4.2 of the spec specifies identifier quoting with the engine
quote character; the adapter itself uses backticks for identifiers in
the PRAGMA statements it formats, so backtick quoting is used here. -/
def escapeName (n : String) : String :=
  "`" ++ n ++ "`"

/-- Statement text of PRAGMA INDEX_LIST for a table (line 1030). -/
def sqlPragmaIndexList (table : String) : String :=
  "PRAGMA INDEX_LIST(" ++ escapeName table ++ ")"

/-- Statement text of PRAGMA INDEX_INFO for an index (line 1043). -/
def sqlPragmaIndexInfo (name : String) : String :=
  "PRAGMA INDEX_INFO(" ++ escapeName name ++ ")"

/-- Statement text of CREATE INDEX (lines 1094-1096). -/
def sqlCreateIndex (name table : String) (cols : List String) : String :=
  "CREATE INDEX " ++ escapeName name ++ " ON " ++ escapeName table ++ "(" ++
    joinSep "," (cols.map escapeName) ++ ")"

/-- Index descriptor as produced by indexes(table).list: name plus column
names. -/
structure IxDescriptor where
  name : String
  columns : List String
deriving DecidableEq

/-- Error raised on the index drop path: line 1148 calls
self.escapeName, but the SqliteAdapter class declares no such method
(and has no base class), so evaluating the DROP INDEX template throws a
TypeError before any statement is issued. -/
def typeErrorEscapeName : String :=
  "TypeError: self.escapeName is not a function"

/-- Embedding of indexes(table).list without the memo (lines 1025-1060):
PRAGMA INDEX_LIST filtered to origin c, then one PRAGMA INDEX_INFO per
listed index to resolve its columns. -/
def ixList (db : Db) (table : String) : List IxDescriptor × List String :=
  let created := (db.indexes.filter (fun i => i.table == table)).filter
    (fun i => i.origin == "c")
  (created.map (fun i => ⟨i.name, i.columns⟩),
    sqlPragmaIndexList table :: created.map (fun i => sqlPragmaIndexInfo i.name))

/-- Append a freshly created index to the engine state. -/
def addIndex (db : Db) (table name : String) (cols : List String) : Db :=
  { db with indexes := db.indexes ++ [⟨table, name, "c", cols⟩] }

/-- Outcome of one index reconciliation step, with the memoized listing
(indexes_ on the handle object) threaded through. -/
structure IxStepResult where
  db : Db
  trace : List String
  error : Option String
  cache : Option (List IxDescriptor)

/-- Embedding of indexes(table).create (lines 1076-1125) together with the
drop it delegates to (lines 1136-1150).  The count nCols starts at the
number of requested columns and is decremented once per existing index
column present in the request; only a strictly positive remainder
triggers the drop-and-recreate path.  On that path drop finds the index
in PRAGMA INDEX_LIST and then evaluates self.escapeName, which throws
(see typeErrorEscapeName) before any DROP INDEX reaches the engine. -/
def ixCreate (db : Db) (table : String) (cache : Option (List IxDescriptor))
    (name : String) (cols : List String) : IxStepResult :=
  let listed := match cache with
    | some l => (l, ([] : List String))
    | none => ixList db table
  let indexes := listed.1
  let trList := listed.2
  let cache2 := some indexes
  let sqlCreate := sqlCreateIndex name table cols
  match indexes.find? (fun x => x.name == name) with
  | none => ⟨addIndex db table name cols, trList ++ [sqlCreate], none, cache2⟩
  | some ix =>
    let nCols : Int := (cols.length : Int) -
      ((ix.columns.filter (fun x => cols.contains x)).length : Int)
    if nCols > 0 then
      let dropTrace := [sqlPragmaIndexList table]
      let existsIx := (db.indexes.filter (fun i => i.table == table)).any
        (fun i => i.name == name)
      if existsIx then
        ⟨db, trList ++ dropTrace, some typeErrorEscapeName, cache2⟩
      else
        ⟨addIndex db table name cols, trList ++ dropTrace ++ [sqlCreate], none, cache2⟩
    else
      ⟨db, trList, none, cache2⟩

/-- Public entry indexes(table).create on a fresh handle (empty memo). -/
def indexesCreate (db : Db) (table name : String) (cols : List String) : IxStepResult :=
  ixCreate db table none name cols

/-! ## Migration engine (src/SqliteAdapter.js lines 270-554) -/

/-- Index requirement inside a migration descriptor. -/
structure MigIndex where
  name : String
  columns : List String
deriving DecidableEq

/-- Migration descriptor.  The add list is required (the create path
dereferences it unconditionally); change, remove and indexes are
optional.  The updated flag models the property the engine sets on the
caller object, absent meaning not set. -/
structure Migration where
  appliesTo : String
  version : String
  model : Option String := none
  description : Option String := none
  add : List FieldDefinition := []
  change : Option (List FieldDefinition) := none
  remove : Option (List FieldDefinition) := none
  indexes : Option (List MigIndex) := none
  updated : Bool := false
deriving DecidableEq

/-- JavaScript guard of the remove and change loops
(src/SqliteAdapter.js lines 396 and 420): the source compares the array
itself against 0.  The relational operator coerces the array through
its string form, which is empty for an empty array (number 0) and
"[object Object]..." for any non-empty array of field objects (NaN);
in both cases the comparison yields false, so the guarded loop body is
unreachable. -/
def jsArrayGtZero (_ : List FieldDefinition) : Bool := false

/-- Reconstructed live type of a column as compared by the migration
engine (lines 430 and 465): uppercased declared type plus a suffix
driven by the stored notnull flag. -/
def reconstructedType (c : SqlColumn) : String :=
  strToUpper c.type ++ (if c.nullable then " NOT NULL" else " NULL")

/-- Remove-list pass (lines 397-415, unreachable behind jsArrayGtZero):
entries naming a live non-primary column are kept and force an alter;
entries naming a primary or missing column are spliced out. -/
def processRemove (columns : List SqlColumn) : List FieldDefinition → List FieldDefinition × Bool
  | [] => ([], false)
  | x :: rest =>
    let r := processRemove columns rest
    match columns.find? (fun y => y.name == x.name) with
    | some column => if column.primary then r else (x :: r.1, true)
    | none => r

/-- Change-list pass (lines 421-449, unreachable behind jsArrayGtZero):
primary columns are spliced out, missing columns are moved to the add
list, and a surviving type mismatch forces an alter.  Returns the new
change list, the entries pushed onto add, and the force flag. -/
def processChange (columns : List SqlColumn) :
    List FieldDefinition → List FieldDefinition × List FieldDefinition × Bool
  | [] => ([], [], false)
  | x :: rest =>
    let r := processChange columns rest
    match columns.find? (fun y => y.name == x.name) with
    | some column =>
      if column.primary then r
      else if formatType x == reconstructedType column then (x :: r.1, r.2.1, r.2.2)
      else (x :: r.1, r.2.1, true)
    | none => (r.1, x :: r.2.1, r.2.2)

/-- Add-list pass (lines 452-476): entries matching a live primary column
or a live column of identical reconstructed type are spliced out of the
caller list; a surviving match with a differing type forces an alter.
The splice-with-index-adjustment loop of the source makes one
independent keep-or-drop decision per entry, which this recursion
mirrors. -/
def processAdd (columns : List SqlColumn) : List FieldDefinition → List FieldDefinition × Bool
  | [] => ([], false)
  | x :: rest =>
    let r := processAdd columns rest
    match columns.find? (fun y => y.name == x.name) with
    | some column =>
      if column.primary then r
      else if formatType x == reconstructedType column then r
      else (x :: r.1, true)
    | none => (x :: r.1, r.2)

/-- Error text of the forced-alter rejection (line 478). -/
def fullTableMigrationError : String :=
  "Full table migration is not yet implemented."

/-- Statement text of CREATE TABLE for the create path (lines 370-375). -/
def sqlCreateTable (name : String) (fields : List FieldDefinition) : String :=
  "CREATE TABLE \"" ++ name ++ "\" (" ++
    joinSep ", " ((fields.filter (fun x => !x.oneToMany)).map formatFieldDDL) ++ ")"

/-- Statement text of ALTER TABLE ADD COLUMN (line 484). -/
def sqlAlterAddColumn (table : String) (x : FieldDefinition) : String :=
  "ALTER TABLE \"" ++ table ++ "\" ADD COLUMN \"" ++ x.name ++ "\" " ++ formatType x

/-- Physical column the engine records for a freshly declared field: the
declared type is the base type text, the constraints become flags. -/
def physColumnOfField (cid : Nat) (f : FieldDefinition) : PhysColumn :=
  { name := f.name, cid := cid, type := baseTypeS f,
    notnull := f.primary || (match f.nullable with | some false => true | _ => false),
    pk := if f.primary then 1 else 0 }

/-- Engine effect of the CREATE TABLE statement built by the create path. -/
def addTable (db : Db) (name : String) (fields : List FieldDefinition) : Db :=
  let cols := fields.filter (fun x => !x.oneToMany)
  { db with tables := db.tables ++
      [⟨name, cols.enum.map (fun p => physColumnOfField p.1 p.2)⟩] }

/-- Engine effect of the ALTER TABLE ADD COLUMN statements. -/
def addColumns (db : Db) (name : String) (fields : List FieldDefinition) : Db :=
  { db with tables := db.tables.map (fun t =>
      if t.name == name then
        { t with columns := t.columns ++
            (fields.enum.map (fun p => physColumnOfField (t.columns.length + p.1) p.2)) }
      else t) }

/-- Ledger row recorded by the final pipeline stage (lines 536-539). -/
def mkLedgerEntry (m : Migration) : LedgerEntry :=
  ⟨m.appliesTo, m.model, m.version, m.description⟩

/-- Engine effect of the ledger INSERT. -/
def insertLedger (db : Db) (m : Migration) : Db :=
  { db with ledger := db.ledger ++ [mkLedgerEntry m] }

/-- Outcome of one migration run: engine state, statement trace, error and
the caller descriptor as the caller sees it afterwards (the source
mutates the very object it was given). -/
structure MigResult where
  db : Db
  trace : List String
  error : Option String
  migration : Migration
deriving DecidableEq

/-- Aggregated outcome record for general results. -/
structure OpResult where
  db : Db
  trace : List String
  error : Option String

/-- Index stage of migrate (lines 510-532): each descriptor index is
reconciled sequentially through one shared handle, whose memoized
listing is threaded across the iterations; the first failure aborts. -/
def ixLoop (db : Db) (table : String) (cache : Option (List IxDescriptor)) :
    List MigIndex → OpResult
  | [] => ⟨db, [], none⟩
  | d :: rest =>
    let r := ixCreate db table cache d.name d.columns
    match r.error with
    | some e => ⟨r.db, r.trace, some e⟩
    | none =>
      let rr := ixLoop r.db table r.cache rest
      ⟨rr.db, r.trace ++ rr.trace, rr.error⟩

/-- Index stage entry: nothing to do without an indexes list. -/
def applyIndexes (db : Db) (m : Migration) : OpResult :=
  match m.indexes with
  | none => ⟨db, [], none⟩
  | some l => ixLoop db m.appliesTo none l

/-- Steps six and seven of the pipeline for a positive status: apply the
descriptor indexes, then insert the ledger row. -/
def finishMigration (db : Db) (trace : List String) (m : Migration) : MigResult :=
  let ir := applyIndexes db m
  match ir.error with
  | some e => ⟨ir.db, trace ++ ir.trace, some e, m⟩
  | none => ⟨insertLedger ir.db m, trace ++ ir.trace ++ [sqlInsertMigration], none, m⟩

/-- Steps one and two of the pipeline: the ledger table is created unless
the static flag or the existence query says it is already there; on
creation the static flag is set. -/
def ensureLedgerDb (db : Db) : Db :=
  if db.supportMigrations || db.migrationsTable then db
  else { db with migrationsTable := true, supportMigrations := true }

/-- Statements issued by steps one and two. -/
def ensureLedgerTrace (db : Db) : List String :=
  (if db.supportMigrations then [] else [sqlCheckTableExists]) ++
    (if db.supportMigrations || db.migrationsTable then [] else [sqlCreateMigrationsTable])

/-- Alter path of step five (lines 384-507): the remove and change passes
sit behind the always-false array guard, the add pass splices the caller
list, a forced alter rejects the migration, and otherwise one ALTER per
surviving add entry is issued before indexes and ledger. -/
def alterPath (db2 : Db) (tr : List String) (migration : Migration) : MigResult :=
  let columns := introspectColumns db2 migration.appliesTo
  let removeRes : Option (List FieldDefinition) × Bool :=
    match migration.remove with
    | some l =>
      if jsArrayGtZero l then (some (processRemove columns l).1, (processRemove columns l).2)
      else (some l, false)
    | none => (none, false)
  let changeRes : Option (List FieldDefinition) × List FieldDefinition × Bool :=
    match migration.change with
    | some l =>
      if jsArrayGtZero l then
        (some (processChange columns l).1, (processChange columns l).2.1,
          (processChange columns l).2.2)
      else (some l, [], false)
    | none => (none, [], false)
  let ar := processAdd columns (migration.add ++ changeRes.2.1)
  let forceAlter := removeRes.2 || changeRes.2.2 || ar.2
  let migration2 := { migration with
    remove := removeRes.1, change := changeRes.1, add := ar.1 }
  if forceAlter then
    ⟨db2, tr, some fullTableMigrationError, migration2⟩
  else
    finishMigration (addColumns db2 migration.appliesTo ar.1)
      (tr ++ ar.1.map (fun x => sqlAlterAddColumn migration.appliesTo x)) migration2

/-- Embedding of migrate for a non-null descriptor (lines 279-553), as the
sequential waterfall: ensure the ledger, read the live version (this
fails when the ledger table is still missing despite the static flag),
short-circuit when live version is at least the descriptor version,
check table existence, introspect columns, then create or alter, apply
indexes, and record the ledger row. -/
def migrateM (db : Db) (migration : Migration) : MigResult :=
  let db2 := ensureLedgerDb db
  let tr0 := ensureLedgerTrace db
  if db2.migrationsTable = false then
    ⟨db2, tr0 ++ [sqlSelectVersion], some noSuchTableMigrations, migration⟩
  else
    let tr3 := tr0 ++ [sqlSelectVersion]
    if jsStrLe migration.version (versionOf db2 migration.appliesTo) then
      ⟨db2, tr3, none, { migration with updated := true }⟩
    else
      let tr5 := tr3 ++ [sqlCheckTableExists] ++ [sqlPragmaTableInfo]
      if tableExistsQ db2 migration.appliesTo = false then
        finishMigration (addTable db2 migration.appliesTo migration.add)
          (tr5 ++ [sqlCreateTable migration.appliesTo migration.add]) migration
      else
        alterPath db2 tr5 migration

/-- Result of the public migrate entry, whose descriptor may be null. -/
structure MigrateResult where
  db : Db
  trace : List String
  error : Option String
  migration : Option Migration
deriving DecidableEq

/-- Embedding of migrate (lines 270-554): a null descriptor returns at
once with no statement executed (lines 273-275). -/
def migrate (db : Db) (obj : Option Migration) : MigrateResult :=
  match obj with
  | none => ⟨db, [], none, none⟩
  | some m =>
    let r := migrateM db m
    ⟨r.db, r.trace, r.error, some r.migration⟩

/-! ## lastIdentity (src/SqliteAdapter.js lines 999-1021) -/

/-- Environment of one lastIdentity call: outcome of opening and the
engine response to the identity query. -/
structure IdentityEnv where
  openErr : Option String := none
  lastvalRows : Except String (List Row) := .ok []

/-- Value object handed to the callback. -/
structure LastIdentityValue where
  insertId : JsValue
deriving DecidableEq

/-- Embedding of lastIdentity: an open failure is propagated, a failure
of the identity query or an empty result yields a null insertId without
error, and a first row yields its lastval property (undefined when the
normalization deleted it). -/
def lastIdentity (env : IdentityEnv) : Except String LastIdentityValue :=
  match env.openErr with
  | some e => .error e
  | none =>
    match env.lastvalRows with
    | .error _ => .ok ⟨JsValue.null⟩
    | .ok rows =>
      let lastval := normalizeRows rows
      match lastval with
      | [] => .ok ⟨JsValue.null⟩
      | r :: _ => .ok ⟨((r.lookup "lastval").getD JsValue.undefined)⟩

/-! ## Concrete inputs used by the closed theorems -/

/-- Engine state with one live table Thing carrying a non-primary TEXT
column named title. -/
def dbChangeBug : Db :=
  { supportMigrations := false, migrationsTable := true, ledger := [],
    tables := [⟨"Thing", [⟨"title", 0, "TEXT", false, 0⟩]⟩], indexes := [] }

/-- Descriptor changing the live column title to a differing mapped type. -/
def migChangeBug : Migration :=
  { appliesTo := "Thing", version := "1.0", add := [],
    change := some [{ name := "title", type := "Integer" }] }

/-- Engine state with one explicitly created index idx_a on columns a, b
of table T. -/
def dbIxBug : Db :=
  { migrationsTable := true,
    tables := [⟨"T", [⟨"a", 0, "TEXT", false, 0⟩, ⟨"b", 1, "TEXT", false, 0⟩]⟩],
    indexes := [⟨"T", "idx_a", "c", ["a", "b"]⟩] }

/-- Engine state for the descriptor-mutation counterexample: table T with
a TEXT column named extra matching the descriptor field exactly. -/
def dbMutation : Db :=
  { migrationsTable := true,
    tables := [⟨"T", [⟨"extra", 0, "TEXT", false, 0⟩]⟩] }

/-- Descriptor whose only add entry matches the live column extra, so the
engine splices it out of the caller list. -/
def migMutation : Migration :=
  { appliesTo := "T", version := "1.0",
    add := [{ name := "extra", type := "Text" }] }

/-- Fresh engine state for the idempotence witness. -/
def dbFresh : Db := {}

/-- Simple counter-keyed descriptor for the idempotence witness. -/
def migFresh : Migration :=
  { appliesTo := "things", version := "1.0",
    add := [{ name := "id", type := "Counter", primary := true }] }

/-- Unit of work used by the transaction witnesses: issues one plain
statement and then fails. -/
def workBoom : Work := fun t => ⟨t, ["UPDATE account SET balance=0"], some "boom"⟩

/-- Engine behaviour with no control-statement failures. -/
def envTx0 : TxEnv := {}

/-- Adapter state with an open connection and no active transaction. -/
def sTx0 : TxState := ⟨true, false⟩

/-- Identity environment whose identity query fails. -/
def envIdQueryFail : IdentityEnv := ⟨none, .error "SQLITE_ERROR: disk I/O error"⟩

/-- Identity environment whose identity query returns no rows. -/
def envIdEmpty : IdentityEnv := ⟨none, .ok []⟩

/-- Identity environment whose open fails. -/
def envIdOpenFail : IdentityEnv := ⟨some "open failed", .ok []⟩

/-- Identity environment returning one ordinary row. -/
def envIdRow : IdentityEnv := ⟨none, .ok [[("lastval", JsValue.num 7)]]⟩

/-- First row of the null-normalization witness result set. -/
def rowW0 : Row := [("a", JsValue.null), ("b", JsValue.num 1)]

/-- Second row of the null-normalization witness result set. -/
def rowW1 : Row := [("a", JsValue.num 2), ("b", JsValue.null)]

/-- Single-object result for the null-normalization witness. -/
def objW : Row := [("x", JsValue.null), ("y", JsValue.text "v")]

/-- Primary text field for the type-mapper witness. -/
def fieldW : FieldDefinition :=
  { name := "caption", type := "Text", size := some 64, primary := true }

/-! ## Helper lemmas: the JavaScript string order -/

theorem charListLe_refl (l : List Char) : charListLe l l = true := by
  induction l with
  | nil => rfl
  | cons a as ih => simp [charListLe, ih]

theorem charListLe_total (l₁ l₂ : List Char) (h : charListLe l₁ l₂ = false) :
    charListLe l₂ l₁ = true := by
  induction l₁ generalizing l₂ with
  | nil => simp [charListLe] at h
  | cons a as ih =>
    cases l₂ with
    | nil => rfl
    | cons b bs =>
      by_cases hab : a = b
      · subst hab
        simp only [charListLe, if_pos rfl] at h ⊢
        exact ih bs h
      · simp only [charListLe, if_neg hab] at h
        have hnlt : ¬ a < b := of_decide_eq_false h
        have hba : b < a := lt_of_le_of_ne (not_lt.mp hnlt) (fun hba => hab hba.symm)
        have hbna : ¬ b = a := ne_of_lt hba
        simp only [charListLe, if_neg hbna]
        exact decide_eq_true hba

theorem charListLe_trans (l₁ l₂ l₃ : List Char) (h₁ : charListLe l₁ l₂ = true)
    (h₂ : charListLe l₂ l₃ = true) : charListLe l₁ l₃ = true := by
  induction l₁ generalizing l₂ l₃ with
  | nil => rfl
  | cons a as ih =>
    cases l₂ with
    | nil => simp [charListLe] at h₁
    | cons b bs =>
      cases l₃ with
      | nil => simp [charListLe] at h₂
      | cons c cs =>
        by_cases hab : a = b
        · subst hab
          simp only [charListLe, if_pos rfl] at h₁
          by_cases hac : a = c
          · subst hac
            simp only [charListLe, if_pos rfl] at h₂ ⊢
            exact ih bs cs h₁ h₂
          · simp only [charListLe, if_neg hac] at h₂ ⊢
            exact h₂
        · simp only [charListLe, if_neg hab] at h₁
          by_cases hbc : b = c
          · subst hbc
            simp only [charListLe, if_neg hab]
            exact h₁
          · simp only [charListLe, if_neg hbc] at h₂
            have hlt : a < c := lt_trans (of_decide_eq_true h₁) (of_decide_eq_true h₂)
            simp only [charListLe, if_neg (ne_of_lt hlt)]
            exact decide_eq_true hlt

theorem jsStrLe_refl (s : String) : jsStrLe s s = true :=
  charListLe_refl s.data

theorem jsStrLe_total (a b : String) (h : jsStrLe a b = false) : jsStrLe b a = true :=
  charListLe_total a.data b.data h

theorem jsStrLe_trans (a b c : String) (h₁ : jsStrLe a b = true)
    (h₂ : jsStrLe b c = true) : jsStrLe a c = true :=
  charListLe_trans a.data b.data c.data h₁ h₂

theorem maxS_mem_le (l : List String) (v : String) (hv : v ∈ l) :
    ∃ w, maxS l = some w ∧ jsStrLe v w = true := by
  induction l with
  | nil => cases hv
  | cons x rest ih =>
    rcases List.mem_cons.mp hv with h | h
    · subst h
      cases hm : maxS rest with
      | none => exact ⟨v, by simp [maxS, hm], jsStrLe_refl v⟩
      | some w =>
        by_cases hle : jsStrLe v w = true
        · exact ⟨w, by simp [maxS, hm, hle], hle⟩
        · exact ⟨v, by simp [maxS, hm, hle], jsStrLe_refl v⟩
    · obtain ⟨w, hw, hvw⟩ := ih h
      by_cases hle : jsStrLe x w = true
      · exact ⟨w, by simp [maxS, hw, hle], hvw⟩
      · have hxw : jsStrLe w x = true :=
          jsStrLe_total x w (by simpa using hle)
        exact ⟨x, by simp [maxS, hw, hle], jsStrLe_trans v w x hvw hxw⟩

/-! ## Helper lemmas: migration pipeline state -/

theorem version_ge_insert (db : Db) (m : Migration) :
    jsStrLe m.version (versionOf (insertLedger db m) m.appliesTo) = true := by
  unfold versionOf insertLedger
  have hmem : m.version ∈
      (((db.ledger ++ [mkLedgerEntry m]).filter
        (fun e => e.appliesTo == m.appliesTo)).map (fun e => e.version)) := by
    rw [List.filter_append, List.map_append]
    apply List.mem_append_right
    simp [mkLedgerEntry]
  obtain ⟨w, hw, hvw⟩ := maxS_mem_le _ _ hmem
  simp only [hw]
  by_cases hempty : w = ""
  · subst hempty
    simp only [if_pos rfl]
    exact jsStrLe_trans _ "" "0.0" hvw (by decide)
  · rw [if_neg hempty]
    exact hvw

theorem ixCreate_pres (db : Db) (t : String) (c : Option (List IxDescriptor))
    (n : String) (cols : List String) :
    (ixCreate db t c n cols).db.ledger = db.ledger ∧
    (ixCreate db t c n cols).db.migrationsTable = db.migrationsTable := by
  simp only [ixCreate]
  split
  · simp [addIndex]
  · split
    · split
      · exact ⟨rfl, rfl⟩
      · simp [addIndex]
    · exact ⟨rfl, rfl⟩

theorem ixLoop_pres (t : String) (l : List MigIndex) :
    ∀ (db : Db) (c : Option (List IxDescriptor)),
    (ixLoop db t c l).db.ledger = db.ledger ∧
    (ixLoop db t c l).db.migrationsTable = db.migrationsTable := by
  induction l with
  | nil => intro db c; exact ⟨rfl, rfl⟩
  | cons d rest ih =>
    intro db c
    obtain ⟨h1, h2⟩ := ixCreate_pres db t c d.name d.columns
    simp only [ixLoop]
    split
    · exact ⟨h1, h2⟩
    · obtain ⟨h3, h4⟩ :=
        ih (ixCreate db t c d.name d.columns).db (ixCreate db t c d.name d.columns).cache
      exact ⟨h3.trans h1, h4.trans h2⟩

theorem applyIndexes_pres (db : Db) (m : Migration) :
    (applyIndexes db m).db.ledger = db.ledger ∧
    (applyIndexes db m).db.migrationsTable = db.migrationsTable := by
  unfold applyIndexes
  cases m.indexes with
  | none => exact ⟨rfl, rfl⟩
  | some l => exact ixLoop_pres m.appliesTo l db none

theorem finishMigration_migration (db : Db) (tr : List String) (m : Migration) :
    (finishMigration db tr m).migration = m := by
  simp only [finishMigration]
  split <;> rfl

theorem finishMigration_mtable (db : Db) (tr : List String) (m : Migration) :
    (finishMigration db tr m).db.migrationsTable = db.migrationsTable := by
  simp only [finishMigration]
  split
  · exact (applyIndexes_pres db m).2
  · simpa [insertLedger] using (applyIndexes_pres db m).2

theorem finishMigration_version (db : Db) (tr : List String) (m : Migration)
    (h : (finishMigration db tr m).error = none) :
    jsStrLe m.version (versionOf (finishMigration db tr m).db m.appliesTo) = true := by
  simp only [finishMigration] at h ⊢
  cases herr : (applyIndexes db m).error with
  | some e => rw [herr] at h; simp at h
  | none => exact version_ge_insert (applyIndexes db m).db m

theorem processAdd_sublist (columns : List SqlColumn) (l : List FieldDefinition) :
    (processAdd columns l).1.Sublist l := by
  induction l with
  | nil => exact List.Sublist.refl []
  | cons x rest ih =>
    simp only [processAdd]
    split
    · split
      · exact ih.cons x
      · split
        · exact ih.cons x
        · exact ih.cons₂ x
    · exact ih.cons₂ x

theorem alterPath_eq (db2 : Db) (tr : List String) (m : Migration) :
    alterPath db2 tr m =
      (let ar := processAdd (introspectColumns db2 m.appliesTo) m.add
       if ar.2 then
         ⟨db2, tr, some fullTableMigrationError, { m with add := ar.1 }⟩
       else
         finishMigration (addColumns db2 m.appliesTo ar.1)
           (tr ++ ar.1.map (fun x => sqlAlterAddColumn m.appliesTo x))
           { m with add := ar.1 }) := by
  unfold alterPath
  rcases hr : m.remove with _ | rl <;> rcases hc : m.change with _ | cl <;>
    simp [jsArrayGtZero, ← hr, ← hc]

theorem migrateM_success (db : Db) (m : Migration)
    (h : (migrateM db m).error = none) :
    (migrateM db m).db.migrationsTable = true ∧
    jsStrLe m.version (versionOf (migrateM db m).db m.appliesTo) = true ∧
    (migrateM db m).migration.appliesTo = m.appliesTo ∧
    (migrateM db m).migration.version = m.version := by
  by_cases h1 : (ensureLedgerDb db).migrationsTable = false
  · exfalso
    simp [migrateM, h1] at h
  · have h1t : (ensureLedgerDb db).migrationsTable = true := by
      revert h1; cases (ensureLedgerDb db).migrationsTable <;> simp
    by_cases h2 : jsStrLe m.version (versionOf (ensureLedgerDb db) m.appliesTo) = true
    · simp [migrateM, h1t, h2]
    · have h2f : jsStrLe m.version (versionOf (ensureLedgerDb db) m.appliesTo) = false := by
        revert h2; cases jsStrLe m.version (versionOf (ensureLedgerDb db) m.appliesTo) <;> simp
      by_cases h3 : tableExistsQ (ensureLedgerDb db) m.appliesTo = false
      · simp only [migrateM, h1t, h2f, h3] at h ⊢
        simp at h ⊢
        refine ⟨?_, ?_, ?_, ?_⟩
        · rw [finishMigration_mtable]
          exact h1t
        · exact finishMigration_version _ _ _ h
        · rw [finishMigration_migration]
        · rw [finishMigration_migration]
      · have h3t : tableExistsQ (ensureLedgerDb db) m.appliesTo = true := by
          revert h3; cases tableExistsQ (ensureLedgerDb db) m.appliesTo <;> simp
        simp only [migrateM, h1t, h2f, h3t] at h ⊢
        simp at h ⊢
        rw [alterPath_eq] at h ⊢
        simp only [] at h ⊢
        cases hfa : (processAdd (introspectColumns (ensureLedgerDb db) m.appliesTo) m.add).2 with
        | true =>
          rw [hfa] at h
          simp at h
        | false =>
          rw [hfa] at h
          simp only [Bool.false_eq_true, if_false] at h ⊢
          refine ⟨?_, ?_, ?_, ?_⟩
          · rw [finishMigration_mtable]
            exact h1t
          · exact finishMigration_version _ _ _ h
          · rw [finishMigration_migration]
          · rw [finishMigration_migration]

/-- C2.  Calling migrate twice with the same descriptor (same appliesTo
and same version) performs DDL only on the first call: after any
successful first call the live max-applied version for the table is at
least the descriptor version, so the second call marks the descriptor
updated, issues no ALTER or CREATE statement, and succeeds. -/
theorem migrate_idempotent (db : Db) (m : Migration)
    (h : (migrateM db m).error = none) :
    (migrateM (migrateM db m).db (migrateM db m).migration).error = none ∧
    (migrateM (migrateM db m).db (migrateM db m).migration).migration.updated = true ∧
    (migrateM (migrateM db m).db (migrateM db m).migration).trace.all
      (fun s => !isAlterOrCreate s) = true := by
  obtain ⟨hmt, hver, hap, hv⟩ := migrateM_success db m h
  set r := migrateM db m with hr
  have hed : ensureLedgerDb r.db = r.db := by
    unfold ensureLedgerDb
    rw [hmt]
    simp
  simp only [migrateM]
  rw [hed]
  rw [if_neg (by rw [hmt]; simp)]
  rw [if_pos (by rw [hap, hv]; exact hver)]
  refine ⟨rfl, rfl, ?_⟩
  unfold ensureLedgerTrace
  rw [hmt]
  cases hsm : r.db.supportMigrations <;> simp <;> decide

/-- Witness for migrate_idempotent at a fresh database and a concrete
counter-keyed descriptor. -/
theorem migrate_idempotent_witness :
    (migrateM dbFresh migFresh).error = none ∧
    ((migrateM (migrateM dbFresh migFresh).db (migrateM dbFresh migFresh).migration).error = none ∧
     (migrateM (migrateM dbFresh migFresh).db
       (migrateM dbFresh migFresh).migration).migration.updated = true ∧
     (migrateM (migrateM dbFresh migFresh).db (migrateM dbFresh migFresh).migration).trace.all
       (fun s => !isAlterOrCreate s) = true) :=
  ⟨rfl, migrate_idempotent dbFresh migFresh rfl⟩

/-- C8.  Calling migrate with a null descriptor succeeds immediately: no
error, no SQL statement of any kind, and the engine state is untouched
(the migration pipeline is never entered). -/
theorem migrate_null_noop (db : Db) :
    migrate db none = { db := db, trace := [], error := none, migration := none } := rfl

/-- C1.  Code-bug evidence for the destructive-alter rejection claim: at
an engine state with a live non-primary column title of type TEXT and a
descriptor whose change list retypes title to Integer (a differing
mapped type), migrate does not fail with the unsupported-migration
error; it succeeds and records the ledger row, because the guard of the
change loop compares the array itself with 0, which is false, leaving
the loop unreachable. -/
theorem change_mismatch_not_rejected :
    introspectColumns dbChangeBug "Thing" = [⟨"title", 0, "TEXT", false, false⟩] ∧
    formatType { name := "title", type := "Integer" } ≠
      reconstructedType ⟨"title", 0, "TEXT", false, false⟩ ∧
    (migrateM dbChangeBug migChangeBug).error = none ∧
    (migrateM dbChangeBug migChangeBug).trace.any
      (fun s => strStarts "INSERT INTO migrations" s) = true := by
  decide

/-- C3.  Code-bug evidence for the index reconciliation claim: with a
live index idx_a on columns a and b, requesting idx_a on columns a and c
(a differing set with a missing column) does not issue one DROP INDEX
followed by one CREATE INDEX; the drop path throws the TypeError of the
missing escapeName method and issues neither.  Requesting idx_a on the
single column a (a differing set strictly contained in the live one)
issues no statement at all and reports success. -/
theorem index_recreate_path_broken :
    ((indexesCreate dbIxBug "T" "idx_a" ["a", "c"]).error = some typeErrorEscapeName ∧
     (indexesCreate dbIxBug "T" "idx_a" ["a", "c"]).trace.all
       (fun s => !(strStarts "DROP INDEX" s || strStarts "CREATE INDEX" s)) = true) ∧
    ((indexesCreate dbIxBug "T" "idx_a" ["a"]).error = none ∧
     (indexesCreate dbIxBug "T" "idx_a" ["a"]).trace.all
       (fun s => !(strStarts "DROP INDEX" s || strStarts "CREATE INDEX" s)) = true) ∧
    dbIxBug.indexes.map PhysIndex.columns = [["a", "b"]] := by
  decide

/-- C4 counterexample.  The reconciliation algorithm works on the caller
descriptor itself, not on a working copy: a successful migrate removes
the matched entry from the add list of the submitted descriptor. -/
theorem migrate_mutates_descriptor_counterexample :
    (migrateM dbMutation migMutation).migration.add ≠ migMutation.add ∧
    (migrateM dbMutation migMutation).error = none := by
  decide

/-- C4 amended.  What migrate does leave untouched on the caller
descriptor: appliesTo, version, model, description, indexes, change and
remove are returned unchanged (the change and remove splice loops are
unreachable), while the add list may lose entries in place, always
remaining a subsequence of the original; the updated flag may be set. -/
theorem migrate_descriptor_fields_frame (db : Db) (m : Migration) :
    (migrateM db m).migration.appliesTo = m.appliesTo ∧
    (migrateM db m).migration.version = m.version ∧
    (migrateM db m).migration.model = m.model ∧
    (migrateM db m).migration.description = m.description ∧
    (migrateM db m).migration.indexes = m.indexes ∧
    (migrateM db m).migration.change = m.change ∧
    (migrateM db m).migration.remove = m.remove ∧
    (migrateM db m).migration.add.Sublist m.add := by
  by_cases h1 : (ensureLedgerDb db).migrationsTable = false
  · simp only [migrateM]
    rw [if_pos h1]
    exact ⟨rfl, rfl, rfl, rfl, rfl, rfl, rfl, List.Sublist.refl m.add⟩
  · by_cases h2 : jsStrLe m.version (versionOf (ensureLedgerDb db) m.appliesTo) = true
    · simp only [migrateM]
      rw [if_neg h1, if_pos h2]
      exact ⟨rfl, rfl, rfl, rfl, rfl, rfl, rfl, List.Sublist.refl m.add⟩
    · by_cases h3 : tableExistsQ (ensureLedgerDb db) m.appliesTo = false
      · simp only [migrateM]
        rw [if_neg h1, if_neg h2, if_pos h3, finishMigration_migration]
        exact ⟨rfl, rfl, rfl, rfl, rfl, rfl, rfl, List.Sublist.refl m.add⟩
      · simp only [migrateM]
        rw [if_neg h1, if_neg h2, if_neg h3, alterPath_eq]
        simp only []
        cases hfa : (processAdd (introspectColumns (ensureLedgerDb db) m.appliesTo) m.add).2 with
        | true =>
          simp only [if_pos rfl]
          exact ⟨rfl, rfl, rfl, rfl, rfl, rfl, rfl,
            processAdd_sublist (introspectColumns (ensureLedgerDb db) m.appliesTo) m.add⟩
        | false =>
          rw [if_neg Bool.false_ne_true, finishMigration_migration]
          exact ⟨rfl, rfl, rfl, rfl, rfl, rfl, rfl,
            processAdd_sublist (introspectColumns (ensureLedgerDb db) m.appliesTo) m.add⟩

theorem nodup_keys_eq {row : Row} (hnd : (row.map Prod.fst).Nodup)
    {k : String} {a b : JsValue} (ha : (k, a) ∈ row) (hb : (k, b) ∈ row) : a = b := by
  induction row with
  | nil => cases ha
  | cons x xs ih =>
    rw [List.map_cons, List.nodup_cons] at hnd
    rcases List.mem_cons.mp ha with ha1 | ha1 <;> rcases List.mem_cons.mp hb with hb1 | hb1
    · have hab : (k, a) = (k, b) := ha1.trans hb1.symm
      exact (Prod.mk.injEq _ _ _ _ ▸ congrArg id hab) |>.2
    · exfalso
      apply hnd.1
      have hkmem : k ∈ List.map Prod.fst xs := List.mem_map_of_mem Prod.fst hb1
      rw [← ha1]
      exact hkmem
    · exfalso
      apply hnd.1
      have hkmem : k ∈ List.map Prod.fst xs := List.mem_map_of_mem Prod.fst ha1
      rw [← hb1]
      exact hkmem
    · exact ih hnd.2 ha1 hb1

theorem deleteNullKeys_no_null (keys : List String) (row : Row)
    (h : ∀ kv ∈ row, kv.1 ∈ keys) :
    ∀ kv ∈ deleteNullKeys keys row, kv.2 ≠ JsValue.null := by
  intro kv hkv hnull
  unfold deleteNullKeys at hkv
  rw [List.mem_filter] at hkv
  obtain ⟨hmem, hcond⟩ := hkv
  simp [hnull] at hcond
  exact hcond (h kv hmem)

theorem deleteNullKeys_absent (keys : List String) (row : Row)
    (hnd : (row.map Prod.fst).Nodup) (k : String)
    (hk : k ∈ keys) (hmem : (k, JsValue.null) ∈ row) :
    k ∉ (deleteNullKeys keys row).map Prod.fst := by
  intro hcontra
  rw [List.mem_map] at hcontra
  obtain ⟨kv, hkv, hfst⟩ := hcontra
  unfold deleteNullKeys at hkv
  rw [List.mem_filter] at hkv
  obtain ⟨hmem2, hcond⟩ := hkv
  have hka : (k, kv.2) ∈ row := by
    rw [← hfst]
    exact hmem2
  have hval : kv.2 = JsValue.null := nodup_keys_eq hnd hka hmem
  simp [hval, hfst, hk] at hcond

/-- C5.  Null normalization in execute: in an array result whose rows
draw their keys from the first row (as the driver guarantees) and carry
no duplicate keys, every row is returned with null-valued keys deleted —
no surviving key maps to the null sentinel and every key that held null
is absent; the same holds for a single-object result against its own
keys. -/
theorem execute_null_normalization
    (r0 : Row) (rows : List Row) (obj : Row)
    (hkeys : ∀ row ∈ r0 :: rows, ∀ kv ∈ row, kv.1 ∈ r0.map Prod.fst)
    (hnd : ∀ row ∈ r0 :: rows, (row.map Prod.fst).Nodup)
    (hobj : (obj.map Prod.fst).Nodup) :
    normalizeExecResult (JsExecResult.rows (r0 :: rows)) =
      JsExecResult.rows ((r0 :: rows).map (deleteNullKeys (r0.map Prod.fst))) ∧
    (∀ row ∈ r0 :: rows,
      (∀ kv ∈ deleteNullKeys (r0.map Prod.fst) row, kv.2 ≠ JsValue.null) ∧
      (∀ k, (k, JsValue.null) ∈ row →
        k ∉ (deleteNullKeys (r0.map Prod.fst) row).map Prod.fst)) ∧
    normalizeExecResult (JsExecResult.object obj) =
      JsExecResult.object (deleteNullKeys (obj.map Prod.fst) obj) ∧
    (∀ kv ∈ deleteNullKeys (obj.map Prod.fst) obj, kv.2 ≠ JsValue.null) ∧
    (∀ k, (k, JsValue.null) ∈ obj →
      k ∉ (deleteNullKeys (obj.map Prod.fst) obj).map Prod.fst) := by
  refine ⟨rfl, ?_, rfl, ?_, ?_⟩
  · intro row hrow
    refine ⟨deleteNullKeys_no_null _ _ (hkeys row hrow), ?_⟩
    intro k hknull
    have hkmem : k ∈ r0.map Prod.fst := hkeys row hrow (k, JsValue.null) hknull
    exact deleteNullKeys_absent _ _ (hnd row hrow) k hkmem hknull
  · apply deleteNullKeys_no_null
    intro kv hkv
    exact List.mem_map_of_mem Prod.fst hkv
  · intro k hknull
    have hkmem : k ∈ obj.map Prod.fst := List.mem_map_of_mem Prod.fst hknull
    exact deleteNullKeys_absent _ _ hobj k hkmem hknull

/-- Witness for execute_null_normalization at a concrete two-row result
set and a concrete single-object result. -/
theorem execute_null_normalization_witness :
    (∀ row ∈ rowW0 :: [rowW1], ∀ kv ∈ row, kv.1 ∈ rowW0.map Prod.fst) ∧
    (∀ row ∈ rowW0 :: [rowW1], (row.map Prod.fst).Nodup) ∧
    (objW.map Prod.fst).Nodup ∧
    (normalizeExecResult (JsExecResult.rows (rowW0 :: [rowW1])) =
      JsExecResult.rows ((rowW0 :: [rowW1]).map (deleteNullKeys (rowW0.map Prod.fst))) ∧
    (∀ row ∈ rowW0 :: [rowW1],
      (∀ kv ∈ deleteNullKeys (rowW0.map Prod.fst) row, kv.2 ≠ JsValue.null) ∧
      (∀ k, (k, JsValue.null) ∈ row →
        k ∉ (deleteNullKeys (rowW0.map Prod.fst) row).map Prod.fst)) ∧
    normalizeExecResult (JsExecResult.object objW) =
      JsExecResult.object (deleteNullKeys (objW.map Prod.fst) objW) ∧
    (∀ kv ∈ deleteNullKeys (objW.map Prod.fst) objW, kv.2 ≠ JsValue.null) ∧
    (∀ k, (k, JsValue.null) ∈ objW →
      k ∉ (deleteNullKeys (objW.map Prod.fst) objW).map Prod.fst)) :=
  ⟨by decide, by decide, by decide,
    execute_null_normalization rowW0 [rowW1] objW (by decide) (by decide) (by decide)⟩

theorem strData_append (a b : String) : (a ++ b).data = a.data ++ b.data := by
  cases a
  cases b
  rfl

theorem no_null_suffix_of_last_paren (l : List Char)
    (h : l.getLast? = some ')') : ¬ ((" NULL").data <:+ l) := by
  rintro ⟨t, ht⟩
  rw [← ht] at h
  have hd : (" NULL").data = [' ', 'N', 'U', 'L'] ++ ['L'] := rfl
  rw [hd, ← List.append_assoc, List.getLast?_concat] at h
  exact absurd (Option.some.inj h) (by decide)

theorem last_of_append_paren (a b : String) (hb : b.data.getLast? = some ')') :
    (a ++ b).data.getLast? = some ')' := by
  rw [strData_append, List.getLast?_append, hb]
  rfl

/-- C6 counterexample.  For the Counter logical type with primary set,
formatType returns the fixed autoincrement form, which does not end in
the text PRIMARY KEY NOT NULL (it ends in AUTOINCREMENT NOT NULL), so
the claim fails on the Counter case it explicitly includes. -/
theorem counter_primary_counterexample :
    formatType { name := "id", type := "Counter", primary := true } =
      "INTEGER PRIMARY KEY AUTOINCREMENT NOT NULL" ∧
    ¬ (("PRIMARY KEY NOT NULL").data <:+
      (formatType { name := "id", type := "Counter", primary := true }).data) := by
  constructor
  · rfl
  · decide

/-- C6 amended.  For every primary field whose logical type is not
Counter, formatType is exactly the base type text followed by the
primary-key suffix, and the base text never ends in the text NULL, so no
separate NULL or NOT NULL nullability suffix precedes the primary-key
suffix.  The Counter case returns the fixed autoincrement form instead. -/
theorem primary_formatType_suffix (f : FieldDefinition)
    (hp : f.primary = true) (hc : f.type ≠ "Counter") :
    formatType f = baseTypeS f ++ " PRIMARY KEY NOT NULL" ∧
    ¬ ((" NULL").data <:+ (baseTypeS f).data) := by
  constructor
  · simp [formatType, hc, hp]
  · unfold baseTypeS
    by_cases h01 : f.type = "Boolean"
    · rw [if_pos h01]; decide
    rw [if_neg h01]
    by_cases h02 : f.type = "Byte"
    · rw [if_pos h02]; decide
    rw [if_neg h02]
    by_cases h03 : f.type = "Number"
    · rw [if_pos h03]; decide
    rw [if_neg h03]
    by_cases h04 : f.type = "Float"
    · rw [if_pos h04]; decide
    rw [if_neg h04]
    by_cases h05 : f.type = "Currency"
    · rw [if_pos h05]
      exact no_null_suffix_of_last_paren _ (last_of_append_paren _ _ rfl)
    rw [if_neg h05]
    by_cases h06 : f.type = "Decimal"
    · rw [if_pos h06]
      by_cases hd : (truthy f.size && truthy f.scale) = true
      · rw [if_pos hd]
        exact no_null_suffix_of_last_paren _ (last_of_append_paren _ _ rfl)
      · rw [if_neg hd]; decide
    rw [if_neg h06]
    by_cases h07 : f.type = "Date"
    · rw [if_pos h07]; decide
    rw [if_neg h07]
    by_cases h08 : f.type = "DateTime"
    · rw [if_pos h08]; decide
    rw [if_neg h08]
    by_cases h09 : f.type = "Time"
    · rw [if_pos h09]
      by_cases hs : parsedGtZero f.size = true
      · rw [if_pos hs]
        exact no_null_suffix_of_last_paren _ (last_of_append_paren _ _ rfl)
      · rw [if_neg hs]; decide
    rw [if_neg h09]
    by_cases h10 : f.type = "Long"
    · rw [if_pos h10]; decide
    rw [if_neg h10]
    by_cases h11 : f.type = "Duration"
    · rw [if_pos h11]
      by_cases hs : parsedGtZero f.size = true
      · rw [if_pos hs]
        exact no_null_suffix_of_last_paren _ (last_of_append_paren _ _ rfl)
      · rw [if_neg hs]; decide
    rw [if_neg h11]
    by_cases h12 : f.type = "Integer"
    · rw [if_pos h12]
      by_cases hs : truthy f.size = true
      · rw [if_pos hs]
        exact no_null_suffix_of_last_paren _
          (last_of_append_paren _ _ (last_of_append_paren _ _ rfl))
      · rw [if_neg hs]; decide
    rw [if_neg h12]
    by_cases h13 : f.type = "URL"
    · rw [if_pos h13]
      by_cases hs : truthy f.size = true
      · rw [if_pos hs]
        exact no_null_suffix_of_last_paren _ (last_of_append_paren _ _ rfl)
      · rw [if_neg hs]; decide
    rw [if_neg h13]
    by_cases h14 : f.type = "Text"
    · rw [if_pos h14]
      by_cases hs : truthy f.size = true
      · rw [if_pos hs]
        exact no_null_suffix_of_last_paren _ (last_of_append_paren _ _ rfl)
      · rw [if_neg hs]; decide
    rw [if_neg h14]
    by_cases h15 : f.type = "Note"
    · rw [if_pos h15]
      by_cases hs : truthy f.size = true
      · rw [if_pos hs]
        exact no_null_suffix_of_last_paren _ (last_of_append_paren _ _ rfl)
      · rw [if_neg hs]; decide
    rw [if_neg h15]
    by_cases h16 : f.type = "Image"
    · rw [if_pos h16]; decide
    rw [if_neg h16]
    by_cases h17 : f.type = "Binary"
    · rw [if_pos h17]; decide
    rw [if_neg h17]
    by_cases h18 : f.type = "Guid"
    · rw [if_pos h18]; decide
    rw [if_neg h18]
    by_cases h19 : f.type = "Short"
    · rw [if_pos h19]; decide
    rw [if_neg h19]
    decide

/-- Witness for primary_formatType_suffix at a sized primary text field. -/
theorem primary_formatType_suffix_witness :
    fieldW.primary = true ∧ fieldW.type ≠ "Counter" ∧
    (formatType fieldW = baseTypeS fieldW ++ " PRIMARY KEY NOT NULL" ∧
      ¬ ((" NULL").data <:+ (baseTypeS fieldW).data)) :=
  ⟨rfl, by decide, primary_formatType_suffix fieldW rfl (by decide)⟩

theorem openConn_state_transaction (env : TxEnv) (s : TxState) :
    (openConn env s).1.transaction = s.transaction := by
  unfold openConn
  split
  · rfl
  · split <;> rfl

theorem count_head_sandwich (a b : String) (L : List String) (hne : a ≠ b)
    (hnot : a ∉ L) : List.count a (a :: L ++ [b]) = 1 := by
  simp [List.count_cons, List.count_append, List.count_eq_zero.mpr hnot, hne]

theorem count_tail_sandwich (a b : String) (L : List String) (hne : b ≠ a)
    (hnot : b ∉ L) : List.count b (a :: L ++ [b]) = 1 := by
  simp [List.count_cons, List.count_append, List.count_eq_zero.mpr hnot, hne]

theorem getLast_sandwich (a b : String) (L : List String) :
    (a :: L ++ [b]).getLast? = some b := by
  exact List.getLast?_concat _

/-- C7.  Transaction reentrancy: a nested executeInTransaction on an
instance whose transaction is already active issues no second BEGIN (the
inner unit of work joins the outer transaction), and when the inner unit
of work fails, exactly one ROLLBACK is issued, as the final statement at
the outermost level, with the original error returned to the caller. -/
theorem executeInTransaction_reentrant (env : TxEnv) (fn : Work) (s : TxState) (e : String)
    (hconn : s.rawConnection = true) (hout : s.transaction = false)
    (hbegin : env.beginErr = none)
    (hfail : (fn { s with transaction := true }).error = some e)
    (hnob : "BEGIN TRANSACTION;" ∉ (fn { s with transaction := true }).trace)
    (hnor : "ROLLBACK;" ∉ (fn { s with transaction := true }).trace) :
    (executeInTransaction env (executeInTransaction env fn) s).error = some e ∧
    (executeInTransaction env (executeInTransaction env fn) s).trace =
      "BEGIN TRANSACTION;" :: (fn { s with transaction := true }).trace ++ ["ROLLBACK;"] ∧
    (executeInTransaction env (executeInTransaction env fn) s).trace.count
      "BEGIN TRANSACTION;" = 1 ∧
    (executeInTransaction env (executeInTransaction env fn) s).trace.count "ROLLBACK;" = 1 ∧
    (executeInTransaction env (executeInTransaction env fn) s).trace.getLast? =
      some "ROLLBACK;" := by
  obtain ⟨rc, tx⟩ := s
  replace hconn : rc = true := hconn
  replace hout : tx = false := hout
  subst hconn
  subst hout
  have hinner : executeInTransaction env fn
      { rawConnection := true, transaction := true } =
      fn { rawConnection := true, transaction := true } := by
    simp [executeInTransaction, openConn]
  have houter : executeInTransaction env (executeInTransaction env fn)
      { rawConnection := true, transaction := false } =
      ⟨{ (fn { rawConnection := true, transaction := true }).state with transaction := false },
        "BEGIN TRANSACTION;" ::
          (fn { rawConnection := true, transaction := true }).trace ++ ["ROLLBACK;"],
        some e⟩ := by
    simp [executeInTransaction, openConn, hbegin, hinner, hfail]
  rw [houter]
  refine ⟨rfl, rfl, ?_, ?_, ?_⟩
  · exact count_head_sandwich _ _ _ (by decide) hnob
  · exact count_tail_sandwich _ _ _ (by decide) hnor
  · exact getLast_sandwich _ _ _

/-- Witness for executeInTransaction_reentrant at a concrete failing unit
of work on an open connection. -/
theorem executeInTransaction_reentrant_witness :
    sTx0.rawConnection = true ∧ sTx0.transaction = false ∧ envTx0.beginErr = none ∧
    (workBoom { sTx0 with transaction := true }).error = some "boom" ∧
    "BEGIN TRANSACTION;" ∉ (workBoom { sTx0 with transaction := true }).trace ∧
    "ROLLBACK;" ∉ (workBoom { sTx0 with transaction := true }).trace ∧
    ((executeInTransaction envTx0 (executeInTransaction envTx0 workBoom) sTx0).error =
        some "boom" ∧
      (executeInTransaction envTx0 (executeInTransaction envTx0 workBoom) sTx0).trace =
        "BEGIN TRANSACTION;" :: (workBoom { sTx0 with transaction := true }).trace ++
          ["ROLLBACK;"] ∧
      (executeInTransaction envTx0 (executeInTransaction envTx0 workBoom) sTx0).trace.count
        "BEGIN TRANSACTION;" = 1 ∧
      (executeInTransaction envTx0 (executeInTransaction envTx0 workBoom) sTx0).trace.count
        "ROLLBACK;" = 1 ∧
      (executeInTransaction envTx0 (executeInTransaction envTx0 workBoom) sTx0).trace.getLast? =
        some "ROLLBACK;") :=
  ⟨rfl, rfl, rfl, rfl, by decide, by decide,
    executeInTransaction_reentrant envTx0 workBoom sTx0 "boom" rfl rfl rfl rfl
      (by decide) (by decide)⟩

/-- C10.  For every outermost executeInTransaction call (instance with no
active transaction), the transaction marker is cleared by the time the
continuation runs: on the commit path and the rollback path the marker
is reset before the callback, and on the paths that never reach or never
complete BEGIN it was never set, so after every completed outermost call
no transaction is marked active on the instance. -/
theorem transaction_marker_cleared (env : TxEnv) (fn : Work) (s : TxState)
    (h : s.transaction = false) :
    (executeInTransaction env fn s).state.transaction = false := by
  have hoc : (openConn env s).1.transaction = false :=
    (openConn_state_transaction env s).trans h
  simp only [executeInTransaction]
  split
  · exact hoc
  · rw [if_neg (by rw [hoc]; simp)]
    split
    · exact hoc
    · split <;> rfl

/-- Witness for transaction_marker_cleared at a concrete failing unit of
work on an open connection. -/
theorem transaction_marker_cleared_witness :
    sTx0.transaction = false ∧
    (executeInTransaction envTx0 workBoom sTx0).state.transaction = false :=
  ⟨rfl, transaction_marker_cleared envTx0 workBoom sTx0 rfl⟩

/-- C9.  lastIdentity never reports an error arising from its identity
query: a failing identity query and an empty result both produce a
successful callback with a null insertId; an open failure is the only
error propagated; and with open succeeding the call always succeeds. -/
theorem lastIdentity_swallows_query_errors
    (env1 env2 env3 env4 : IdentityEnv) (e qe : String)
    (h1 : env1.openErr = none) (h2 : env1.lastvalRows = .error qe)
    (h3 : env2.openErr = none) (h4 : env2.lastvalRows = .ok [])
    (h5 : env3.openErr = some e) (h6 : env4.openErr = none) :
    lastIdentity env1 = .ok ⟨JsValue.null⟩ ∧
    lastIdentity env2 = .ok ⟨JsValue.null⟩ ∧
    lastIdentity env3 = .error e ∧
    ∃ v, lastIdentity env4 = .ok v := by
  refine ⟨?_, ?_, ?_, ?_⟩
  · simp [lastIdentity, h1, h2]
  · simp [lastIdentity, h3, h4, normalizeRows]
  · simp [lastIdentity, h5]
  · cases h7 : env4.lastvalRows with
    | error err => exact ⟨⟨JsValue.null⟩, by simp [lastIdentity, h6, h7]⟩
    | ok rows =>
      cases hrows : normalizeRows rows with
      | nil => exact ⟨⟨JsValue.null⟩, by simp [lastIdentity, h6, h7, hrows]⟩
      | cons r rest =>
        exact ⟨⟨(List.lookup "lastval" r).getD JsValue.undefined⟩,
          by simp [lastIdentity, h6, h7, hrows]⟩

/-- Witness for lastIdentity_swallows_query_errors at four concrete
identity environments. -/
theorem lastIdentity_swallows_query_errors_witness :
    envIdQueryFail.openErr = none ∧
    envIdQueryFail.lastvalRows = .error "SQLITE_ERROR: disk I/O error" ∧
    envIdEmpty.openErr = none ∧ envIdEmpty.lastvalRows = .ok [] ∧
    envIdOpenFail.openErr = some "open failed" ∧ envIdRow.openErr = none ∧
    (lastIdentity envIdQueryFail = .ok ⟨JsValue.null⟩ ∧
      lastIdentity envIdEmpty = .ok ⟨JsValue.null⟩ ∧
      lastIdentity envIdOpenFail = .error "open failed" ∧
      ∃ v, lastIdentity envIdRow = .ok v) :=
  ⟨rfl, rfl, rfl, rfl, rfl, rfl,
    lastIdentity_swallows_query_errors envIdQueryFail envIdEmpty envIdOpenFail envIdRow
      "open failed" "SQLITE_ERROR: disk I/O error" rfl rfl rfl rfl rfl rfl⟩

end ThemostSqlite
